import Mathlib

/-!
Verification development for the script-execution engine in
`src/scripts/Script.cpp` (namespace `Scripts`, class `Script`).

The C++ code is shallowly embedded as follows:

* The fields of a `Script` object that the translation unit reads or
  writes (`startPointer`, `currentPointer`, `active`, `invertReturn`,
  `activationTime`, `name`) become a Lean structure `ScriptState`.
  Pointers are byte addresses (`Nat`); the null pointer is `Option.none`
  for the owned buffer origin.
* Process memory, the host opcode-handler table, the host default
  handler, the `Mobile::GetHandler` override registry and the invocation
  of a resolved host handler are an abstract environment `HostEnv`:
  the engine only reads them, so they are modelled as opaque functions.
* 16-bit loads are little-endian reads of two bytes; machine integers
  are `Nat` (the 64-bit multiply in `FindHandler` cannot overflow:
  0x7fff * 1374389535 < 2^64, so no explicit wrap is needed).
* The 8-byte table entries read by `GetAlternateThis` are signed 64-bit
  values, modelled as `Int`; the arithmetic right shift by one is floor
  division by two.
-/

namespace CleoScript

/-- The per-instance fields of `Scripts::Script` that `Script.cpp`
manipulates.  `startPointer` is the owned buffer origin (`none` = null
pointer), `currentPointer` the execution cursor as a byte address. -/
structure ScriptState where
  startPointer : Option Nat
  currentPointer : Nat
  active : Bool
  invertReturn : Bool
  activationTime : Nat
  name : String
deriving DecidableEq

/-- A handler routine is identified by its 64-bit value in the host
table (an address); signed, as the table also stores shifted context
adjustments. -/
abbrev Handler := Int

/-- The host environment consulted by the engine:

* `mem a` — the byte of process memory at address `a` (instruction
  buffers live here; reads are taken mod 256),
* `custom o` — `Mobile::GetHandler(o)`: the native interceptor
  registered for opcode `o`, if any, as a state transformer,
* `defaultHandler` — the slid `defaultOpcodeHandler` address,
* `table64 k` — the signed 8-byte value stored at byte offset `k` from
  the slid `opcodeHandlerTable` base,
* `invokeHost h ctx o` — the effect of calling host routine `h` with
  context pointer `ctx` and opcode `o`: the resulting script state and
  the `uint8` return value of the handler. -/
structure HostEnv where
  mem : Nat → Nat
  custom : Nat → Option (ScriptState → ScriptState)
  defaultHandler : Handler
  table64 : Nat → Int
  invokeHost : Handler → Int → Nat → ScriptState → ScriptState × Nat

/-- Little-endian 16-bit load `*(uint16 *)p` from byte memory. -/
def readU16 (mem : Nat → Nat) (p : Nat) : Nat :=
  mem p % 256 + mem (p + 1) % 256 * 256

/-- Arithmetic right shift by one of a signed 64-bit value
(`x >> 1` on `long long`): floor division by two. -/
def asr1 (v : Int) : Int :=
  Int.fdiv v 2

/-- The table-offset computation of `Script::FindHandler`
(`Script.cpp` line 144):
`uint64 handlerOffset = (uint64((opcode & 0x7fffu) * 1374389535llu) >> 33) & 0x3ffffff0;`. -/
def handlerOffsetOf (opcode : Nat) : Nat :=
  ((opcode &&& 0x7fff) * 1374389535) >>> 33 &&& 0x3ffffff0

/-- `Script::GetAlternateThis` (`Script.cpp` lines 119-127): the
adjusted context pointer is the address of this object's `nextScript`
field plus the arithmetically-half-shifted 8-byte value found 8 bytes
past the handler entry.  `nsOff` is the byte offset of the
`nextScript` field inside the `Script` object (its exact value comes
from the class layout in the header, so it is kept abstract), hence
`&this->nextScript = thisAddr + nsOff`. -/
def GetAlternateThis (env : HostEnv) (nsOff thisAddr : Int) (handlerOffset : Nat) : Int :=
  thisAddr + nsOff + asr1 (env.table64 (handlerOffset + 8))

/-- `Script::FindHandler` (`Script.cpp` lines 129-148).  Returns the
resolved handler together with the (possibly rebound) context pointer
`thisPtr`, which the C++ passes by reference.  Opcodes at or above
0xa8c take the default handler; tabulated opcodes read
`handlerTable[handlerOffset / 8]` — an 8-byte-indexed access, hence
byte offset `8 * (handlerOffset / 8)` — and rebind the context via
`GetAlternateThis`. -/
def FindHandler (env : HostEnv) (nsOff : Int) (opcode : Nat) (thisAddr : Int) :
    Handler × Int :=
  if 0xa8c ≤ opcode then
    (env.defaultHandler, thisAddr)
  else
    let handlerOffset := handlerOffsetOf opcode
    (env.table64 (8 * (handlerOffset / 8)),
     GetAlternateThis env nsOff thisAddr handlerOffset)

/-- The state after the decode phase of `Script::RunNextInstruction`
(`Script.cpp` lines 64-70): the cursor has advanced past the 16-bit
opcode mask and `invertReturn` holds the mask's top bit. -/
def decodedState (mem : Nat → Nat) (s : ScriptState) : ScriptState :=
  { s with
      currentPointer := s.currentPointer + 2,
      invertReturn := readU16 mem s.currentPointer &&& 0x8000 != 0 }

/-- The dispatch phase of `Script::RunNextInstruction` (`Script.cpp`
lines 72-95), operating on the already-decoded opcode and state: first
the `Mobile::GetHandler` override registry, then the special-cased
terminate opcode 0x4e, finally resolution through `FindHandler` and
invocation of the host handler with the rebound context pointer. -/
def dispatch (env : HostEnv) (nsOff thisAddr : Int) (opcode : Nat) (s : ScriptState) :
    ScriptState × Nat :=
  match env.custom opcode with
  | some h => (h s, 0)
  | none =>
    if opcode = 0x4e then
      ({ s with active := false }, 1)
    else
      let resolved := FindHandler env nsOff opcode thisAddr
      env.invokeHost resolved.1 resolved.2 opcode s

/-- `Script::RunNextInstruction` (`Script.cpp` lines 58-96).
`thisAddr` is the address of the script object itself
(`Script *scriptToPass = this`). -/
def RunNextInstruction (env : HostEnv) (nsOff thisAddr : Int) (s : ScriptState) :
    ScriptState × Nat :=
  if s.active then
    dispatch env nsOff thisAddr (readU16 env.mem s.currentPointer &&& 0x7fff)
      (decodedState env.mem s)
  else
    (s, 1)

/-- `Script::Unload` (`Script.cpp` lines 110-113):
`delete[] startPointer; startPointer = nullptr;`.  The second component
is the allocation handed to `delete[]`: the buffer origin when it is
non-null, and `none` when `startPointer` is already null (`delete[]` on
a null pointer releases nothing).  `Script::~Script` simply calls
`Unload`. -/
def Unload (s : ScriptState) : ScriptState × Option Nat :=
  ({ s with startPointer := none }, s.startPointer)

/-- The all-zero `Script` object produced by
`std::fill_n((uint8 *)&script, sizeof(Script), 0)`: null pointers,
zero scalars, false flags, zero bytes in the name array. -/
def zeroedScript : ScriptState :=
  { startPointer := none
    currentPointer := 0
    active := false
    invertReturn := false
    activationTime := 0
    name := "" }

/-- The move constructor `Script::Script(Script &&)` (`Script.cpp`
lines 150-156): `memcpy` the whole object into the destination, then
zero-fill the source.  Returns (destination, source-after-move). -/
def moveConstruct (src : ScriptState) : ScriptState × ScriptState :=
  (src, zeroedScript)

/-- What the loader observes of the outside world: the size reported by
`stat` (zero when `stat` fails, since `st` is value-initialized) and
whether `fopen` succeeds. -/
structure FileSystem where
  fileSize : Nat
  openOk : Bool

/-- Undefined behaviour reached by the loader: passing the null
`FILE *` obtained from a failed `fopen` to `fread`/`fclose`. -/
inductive LoadFault where
  | nullStreamRead
deriving DecidableEq

/-- The loading constructor `Script::Script(const std::string &)`
(`Script.cpp` lines 15-49), step by step: `stat` for the size, `fopen`,
log an error if the open failed (first component of the result — but
note the code does not return there), `activationTime = 0`,
`data = new uint8[size]` (the fresh allocation is at `bufAddr`),
`fread(data, 1, size, scriptFile)`, `startPointer = currentPointer = data`,
`fclose`, and the placeholder name from the static load counter.
When `fopen` failed, control still reaches the `fread` on the null
stream: that undefined behaviour is the `LoadFault.nullStreamRead`
outcome.  The `active` flag and `invertReturn` are never assigned in
the constructor body; their initial values come from the member
initializers in the class header (`active = true`), per the data model.
-/
def constructScript (fs : FileSystem) (bufAddr loadNumber : Nat) :
    Bool × Except LoadFault ScriptState :=
  let loggedOpenFailure := !fs.openOk
  if fs.openOk then
    (loggedOpenFailure,
     Except.ok
       { startPointer := some bufAddr
         currentPointer := bufAddr
         active := true
         invertReturn := false
         activationTime := 0
         name := "magic" ++ toString loadNumber })
  else
    (loggedOpenFailure, Except.error LoadFault.nullStreamRead)

/-! ### Shared helper lemmas and sample environments -/

/-- The low four bits of the offset are cleared by the mask
0x3ffffff0, so every computed offset is a multiple of 16. -/
theorem handlerOffsetOf_mod_sixteen (o : Nat) : handlerOffsetOf o % 16 = 0 := by
  have h15 : handlerOffsetOf o % 16 = handlerOffsetOf o &&& 15 := by
    have h := Nat.and_pow_two_sub_one_eq_mod (handlerOffsetOf o) 4
    norm_num at h
    omega
  rw [h15, handlerOffsetOf, Nat.and_assoc]
  have hm : (0x3ffffff0 &&& 15 : Nat) = 0 := by decide
  simp [hm]

/-- For tabulated opcodes the multiply-shift result is at most 431,
hence so is the masked offset. -/
theorem handlerOffsetOf_le (o : Nat) (h : o < 0xa8c) : handlerOffsetOf o ≤ 431 := by
  have h15 : o &&& 0x7fff = o := by
    have hm := Nat.and_pow_two_sub_one_eq_mod o 15
    have ho : o % 2 ^ 15 = o := Nat.mod_eq_of_lt (by omega)
    norm_num at hm
    omega
  have hshift : (o * 1374389535) >>> 33 = o * 1374389535 / 2 ^ 33 :=
    Nat.shiftRight_eq_div_pow _ 33
  have hmul : o * 1374389535 ≤ 2699 * 1374389535 :=
    Nat.mul_le_mul_right _ (by omega)
  have hdiv : o * 1374389535 / 2 ^ 33 ≤ 431 := by
    have := Nat.div_le_div_right (c := 2 ^ 33) hmul
    norm_num at this
    omega
  calc handlerOffsetOf o ≤ ((o &&& 0x7fff) * 1374389535) >>> 33 := Nat.and_le_left
  _ = o * 1374389535 / 2 ^ 33 := by rw [h15, hshift]
  _ ≤ 431 := hdiv

/-- A sample host environment with no registered interceptors, default
handler address 77 and the table entry at byte offset k holding k. -/
def sampleEnv : HostEnv :=
  { mem := fun _ => 0
    custom := fun _ => none
    defaultHandler := 77
    table64 := fun k => Int.ofNat k
    invokeHost := fun _ _ _ s => (s, 0) }

/-- A freshly loaded, active script whose buffer starts at address 0. -/
def activeScript : ScriptState :=
  { startPointer := some 0
    currentPointer := 0
    active := true
    invertReturn := false
    activationTime := 0
    name := "magic0" }

/-! ### C1 -/

/-- C1: for every opcode at or above 0xa8c, `FindHandler` returns the
host default handler and leaves the context pointer untouched; neither
the offset computation nor the context adjustment runs (the result
does not depend on the table at all). -/
theorem findHandler_default (env : HostEnv) (nsOff : Int) (opcode : Nat) (thisAddr : Int)
    (h : 0xa8c ≤ opcode) :
    FindHandler env nsOff opcode thisAddr = (env.defaultHandler, thisAddr) := by
  simp [FindHandler, h]

/-- C1 witness: opcode 0xa8c itself resolves to the default handler
(address 77 in `sampleEnv`) with the context pointer 5 unchanged. -/
theorem findHandler_default_witness :
    FindHandler sampleEnv 0 0xa8c 5 = (77, 5) :=
  findHandler_default sampleEnv 0 0xa8c 5 (by decide)

/-! ### C2 -/

/-- C2: for every tabulated opcode (below 0xa8c) the table offset is
exactly the 64-bit multiply-shift-mask formula from the source
(determinism is inherent: `handlerOffsetOf` is a function of the opcode
alone), the offset is always a multiple of 16, and `offset / 8` never
exceeds 52, the largest handler index the tabulated range can produce
(the table's 0xa8c tabulated opcodes span 27 16-byte rows, i.e. 54
8-byte slots, so index 52 is in bounds). -/
theorem handlerOffset_tabulated_bounds (o : Nat) (h : o < 0xa8c) :
    handlerOffsetOf o = ((o &&& 0x7fff) * 1374389535) >>> 33 &&& 0x3ffffff0 ∧
    handlerOffsetOf o % 16 = 0 ∧
    handlerOffsetOf o / 8 ≤ 52 := by
  refine ⟨rfl, handlerOffsetOf_mod_sixteen o, ?_⟩
  have h16 := handlerOffsetOf_mod_sixteen o
  have hle := handlerOffsetOf_le o h
  omega

/-- C2 witness: the largest tabulated opcode 0xa8b has offset 416, a
multiple of 16, with handler index 52. -/
theorem handlerOffset_tabulated_bounds_witness :
    handlerOffsetOf 0xa8b = ((0xa8b &&& 0x7fff) * 1374389535) >>> 33 &&& 0x3ffffff0 ∧
    handlerOffsetOf 0xa8b % 16 = 0 ∧
    handlerOffsetOf 0xa8b / 8 ≤ 52 :=
  handlerOffset_tabulated_bounds 0xa8b (by decide)

/-! ### C3 -/

/-- C3: for every opcode below 0xa8c, `FindHandler` returns the handler
stored in the table at index `offset / 8` (equivalently byte offset
`offset`, since the offset is a multiple of 16 and the entries are 8
bytes wide) and rebinds the context pointer to the address of the
original object's `nextScript` field plus the 8-byte table value at
byte offset `offset + 8` arithmetically shifted right by one. -/
theorem findHandler_tabulated (env : HostEnv) (nsOff : Int) (opcode : Nat) (thisAddr : Int)
    (h : opcode < 0xa8c) :
    FindHandler env nsOff opcode thisAddr =
      (env.table64 (handlerOffsetOf opcode),
       thisAddr + nsOff + asr1 (env.table64 (handlerOffsetOf opcode + 8))) := by
  have h16 := handlerOffsetOf_mod_sixteen opcode
  have h8 : 8 * (handlerOffsetOf opcode / 8) = handlerOffsetOf opcode := by omega
  simp only [FindHandler, GetAlternateThis, h8]
  rw [if_neg (by omega)]

/-- C3 witness: opcode 0 has offset 0, so in `sampleEnv` (table entry k
at byte offset k) the handler is 0 and the context pointer 10 is
rebound to 10 + 1 + (8 >> 1) = 15 for a `nextScript` field offset of 1. -/
theorem findHandler_tabulated_witness :
    FindHandler sampleEnv 1 0 10 = (0, 15) := by
  have h := findHandler_tabulated sampleEnv 1 0 10 (by decide)
  simpa [sampleEnv, handlerOffsetOf, asr1] using h

/-! ### C4 -/

/-- A host environment whose override registry intercepts opcode 0x4e
with the identity transformer, and whose memory holds the instruction
mask 0x004e at address 0. -/
def interceptEnv : HostEnv :=
  { mem := fun a => if a = 0 then 0x4e else 0
    custom := fun o => if o = 0x4e then some (fun s => s) else none
    defaultHandler := 77
    table64 := fun k => Int.ofNat k
    invokeHost := fun _ _ _ s => (s, 0) }

/-- C4 counterexample: an active unit about to execute opcode 0x4e for
which a native interceptor is registered does NOT terminate — the step
returns 0 and leaves `active` true, because `RunNextInstruction`
consults the override registry before the terminate special case.  So
the claim "opcode 0x4e always sets active to false and returns 1
without invoking any handler" is false as stated. -/
theorem runNext_terminate_claim_cex :
    ¬ ((RunNextInstruction interceptEnv 0 0 activeScript).2 = 1 ∧
       (RunNextInstruction interceptEnv 0 0 activeScript).1.active = false) := by
  decide

/-- C4 (amended): for every active unit whose next masked opcode is
0x4e and for which no native interceptor is registered for 0x4e,
`RunNextInstruction` sets `active` to false and returns 1; the result
is the decoded state with `active` cleared, so no handler of any kind
is invoked (the result does not depend on `invokeHost` or the table). -/
theorem runNext_terminate (env : HostEnv) (nsOff thisAddr : Int) (s : ScriptState)
    (ha : s.active = true)
    (hop : readU16 env.mem s.currentPointer &&& 0x7fff = 0x4e)
    (hc : env.custom 0x4e = none) :
    RunNextInstruction env nsOff thisAddr s =
      ({ decodedState env.mem s with active := false }, 1) := by
  simp [RunNextInstruction, ha, hop, dispatch, hc]

/-- An environment identical to `interceptEnv` but with an empty
override registry. -/
def termEnv : HostEnv :=
  { mem := fun a => if a = 0 then 0x4e else 0
    custom := fun _ => none
    defaultHandler := 77
    table64 := fun k => Int.ofNat k
    invokeHost := fun _ _ _ s => (s, 0) }

/-- C4 witness: with no interceptor registered, stepping the unit at
mask 0x004e clears `active` and returns 1. -/
theorem runNext_terminate_witness :
    RunNextInstruction termEnv 0 0 activeScript =
      ({ decodedState termEnv.mem activeScript with active := false }, 1) :=
  runNext_terminate termEnv 0 0 activeScript rfl (by decide) rfl

/-! ### C5 -/

/-- C5: evaluation of the loading constructor when `fopen` fails.  The
failure is logged (first component `true`), but the constructor does
not stop: control reaches the `fread` on the null `FILE *`, which is
undefined behaviour, instead of leaving a well-defined unit with no
buffer installed.  (On the straight-line reading, had the `fread` and
`fclose` not faulted, `startPointer` would even have been set to the
fresh allocation.)  This contradicts the documented contract that the
unit is left with no usable buffer — the missing early return after the
error log is a code bug. -/
theorem constructScript_openFailure_eval :
    constructScript { fileSize := 5, openOk := false } 4096 0 =
      (true, Except.error LoadFault.nullStreamRead) := rfl

/-! ### C6 -/

/-- C6: stepping an inactive unit returns 1 and leaves the whole state
unchanged; since the equality holds for every environment, neither the
buffer, the override registry nor the handler resolver is consulted,
and the cursor and `invertReturn` are untouched. -/
theorem runNext_inactive (env : HostEnv) (nsOff thisAddr : Int) (s : ScriptState)
    (h : s.active = false) :
    RunNextInstruction env nsOff thisAddr s = (s, 1) := by
  simp [RunNextInstruction, h]

/-- C6 witness: the zeroed (inactive) unit steps to itself with result 1. -/
theorem runNext_inactive_witness :
    RunNextInstruction sampleEnv 0 0 zeroedScript = (zeroedScript, 1) :=
  runNext_inactive sampleEnv 0 0 zeroedScript rfl

/-! ### C7 -/

/-- C7: every executed step of an active unit reads the 16-bit mask at
the cursor, dispatches on the low 15 bits of the mask (`mask % 0x8000 =
mask &&& 0x7fff`) against the state whose cursor has advanced by
exactly 2 bytes and whose `invertReturn` equals bit 15 of the mask; in
particular mask 0x8012 dispatches opcode 0x12 with `invertReturn`
true. -/
theorem runNext_decode (env : HostEnv) (nsOff thisAddr : Int) (s : ScriptState)
    (h : s.active = true) :
    RunNextInstruction env nsOff thisAddr s =
      dispatch env nsOff thisAddr (readU16 env.mem s.currentPointer % 0x8000)
        (decodedState env.mem s) ∧
    (decodedState env.mem s).currentPointer = s.currentPointer + 2 ∧
    (decodedState env.mem s).invertReturn = (readU16 env.mem s.currentPointer).testBit 15 ∧
    (readU16 env.mem s.currentPointer = 0x8012 →
      readU16 env.mem s.currentPointer &&& 0x7fff = 0x12 ∧
      (decodedState env.mem s).invertReturn = true) := by
  have hmod : ∀ m : Nat, m &&& 0x7fff = m % 0x8000 := by
    intro m
    have hm := Nat.and_pow_two_sub_one_eq_mod m 15
    norm_num at hm
    omega
  have hbit : ∀ m : Nat, (m &&& 0x8000 != 0) = m.testBit 15 := by
    intro m
    have h2 : m &&& 0x8000 = (m.testBit 15).toNat * 2 ^ 15 := by
      have := Nat.and_two_pow m 15
      norm_num at this ⊢
      omega
    cases hb : m.testBit 15 <;> simp [h2, hb]
  refine ⟨by rw [RunNextInstruction, if_pos h, hmod], rfl, ?_, ?_⟩
  · rw [decodedState]
    exact hbit _
  · intro hm
    constructor
    · rw [hm]
      decide
    · simp only [decodedState, hm]
      decide

/-- An environment whose memory holds the little-endian mask 0x8012 at
address 0 (byte 0x12, then byte 0x80). -/
def maskEnv : HostEnv :=
  { mem := fun a => if a = 0 then 0x12 else if a = 1 then 0x80 else 0
    custom := fun _ => none
    defaultHandler := 77
    table64 := fun k => Int.ofNat k
    invokeHost := fun _ _ _ s => (s, 0) }

/-- C7 witness: at mask 0x8012 the step dispatches opcode 0x12 against
the decoded state, the cursor has moved from 0 to 2, and `invertReturn`
is true. -/
theorem runNext_decode_witness :
    RunNextInstruction maskEnv 0 0 activeScript =
      dispatch maskEnv 0 0 0x12 (decodedState maskEnv.mem activeScript) ∧
    (decodedState maskEnv.mem activeScript).currentPointer = 2 ∧
    (decodedState maskEnv.mem activeScript).invertReturn = true := by
  obtain ⟨h1, h2, h3, _⟩ := runNext_decode maskEnv 0 0 activeScript rfl
  refine ⟨?_, ?_, ?_⟩
  · have hv : readU16 maskEnv.mem activeScript.currentPointer % 0x8000 = 0x12 := by decide
    rw [hv] at h1
    exact h1
  · simpa [activeScript] using h2
  · rw [h3]
    decide

/-! ### C8 -/

/-- C8: `Unload` releases exactly the buffer origin `startPointer`
(never the cursor) and nulls it; a second `Unload` — in particular the
unconditional one performed by the destructor — releases nothing
(`delete[]` of the null pointer) and leaves the unit unchanged, so the
buffer is released exactly once and a double unload is safe. -/
theorem unload_idempotent (s : ScriptState) :
    (Unload s).2 = s.startPointer ∧
    (Unload s).1.startPointer = none ∧
    (Unload s).1.currentPointer = s.currentPointer ∧
    Unload (Unload s).1 = ((Unload s).1, none) :=
  ⟨rfl, rfl, rfl, rfl⟩

/-! ### C9 -/

/-- C9: the move constructor copies the source verbatim into the
destination and leaves the source completely zeroed: buffer pointer
null, `active` false, every other field zero.  Destroying the moved-from
source (its destructor runs `Unload`) therefore releases nothing. -/
theorem moveConstruct_spec (s : ScriptState) :
    (moveConstruct s).1 = s ∧
    (moveConstruct s).2 = zeroedScript ∧
    (moveConstruct s).2.startPointer = none ∧
    (moveConstruct s).2.active = false ∧
    (Unload (moveConstruct s).2).2 = none :=
  ⟨rfl, rfl, rfl, rfl, rfl⟩

/-! ### C10 -/

/-- C10: the override registry is consulted before the terminate
special case: whenever an interceptor is registered for the decoded
opcode — any opcode, 0x4e included — the step applies the interceptor
to the decoded state (the unit itself is the context) and returns 0;
the engine adds no state change of its own, in particular it does not
clear `active`, so the terminate branch runs only when no interceptor
is registered. -/
theorem runNext_interceptor (env : HostEnv) (nsOff thisAddr : Int) (s : ScriptState)
    (h : ScriptState → ScriptState)
    (ha : s.active = true)
    (hc : env.custom (readU16 env.mem s.currentPointer &&& 0x7fff) = some h) :
    RunNextInstruction env nsOff thisAddr s = (h (decodedState env.mem s), 0) := by
  simp [RunNextInstruction, ha, dispatch, hc]

/-- C10 witness: with the identity interceptor registered for 0x4e and
the unit about to execute mask 0x004e, the step returns 0 and the unit
stays active — the interceptor preempts termination. -/
theorem runNext_interceptor_witness :
    RunNextInstruction interceptEnv 0 0 activeScript =
      (decodedState interceptEnv.mem activeScript, 0) ∧
    (RunNextInstruction interceptEnv 0 0 activeScript).1.active = true := by
  have h := runNext_interceptor interceptEnv 0 0 activeScript (fun s => s) rfl rfl
  exact ⟨h, by rw [h]; rfl⟩

end CleoScript
